import Mathlib

/-!
A shallow embedding of `bibcheck.py` (class `bibchecker`): resolving the
entries of a BibTeX bibliography to Google Scholar records (`update_db`),
fetching the articles that cite each resolved entry (`get_citers`), counting
the shared citers (`find_common`), and reporting the tallies
(`print_results` and `save_results`).

The two network collaborators are modelled as oracles: a full-text title
search and a cited-by search, each returning the list the querier holds in
`articles` after `send_query`.  File and console output is modelled as the
list, or string, of emitted text.  A Python statement that can raise is
modelled in `Except String`.
-/

namespace Bibcheck

/-- One result record of the citation-index query client, as consumed through
`__getitem__`: it exposes `num_citations`, `cluster_id` and `title`. -/
structure SchArticle where
  num_citations : Int
  cluster_id : String
  title : String
deriving DecidableEq

/-- A `(cluster ID, title)` pair recorded for one citing article: the
`CiterRecord` that `get_citers` appends to `cited_by`. -/
abbrev Citer := String × String

/-- One bibliography entry: a mutable record with the loaded `title` and the
keys added later, `num_citations` and `cluster_id` by `update_db` and
`cited_by` by `get_citers`.  An `Option` field set to `none` models the key
being absent from the dict (or, for the first two, holding Python `None`). -/
structure Reference where
  title : String
  num_citations : Option Int
  cluster_id : Option String
  cited_by : Option (List Citer)
deriving DecidableEq

/-- The title-search oracle: `SearchScholarQuery` with `set_words`, returning
the `articles` list that `send_query` leaves on the querier. -/
abbrev SearchFn := String → List SchArticle

/-- The cited-by oracle: `SearchScholarQuery` with `set_cites_id` and
`set_start`, returning the page of `articles` for a cluster ID and a start
offset. -/
abbrev CitesFn := String → Int → List SchArticle

/-- The loop body of `update_db` (src/bibcheck.py lines 71-82): query by the
entry title and copy `num_citations` and `cluster_id` from the first result;
when `querier.articles` is empty the `IndexError` branch stores `None` in
both keys. -/
def resolveEntry (f : SearchFn) (article : Reference) : Reference :=
  match f article.title with
  | [] => { article with num_citations := none, cluster_id := none }
  | sch_article :: _ =>
      { article with
          num_citations := some sch_article.num_citations
          cluster_id := some sch_article.cluster_id }

/-- The diagnostic printed on line 89 before `exit()`. -/
def captchaError : String :=
  "Error: failed to pull Google Scholar cluster IDs. Probably running into a captcha."

/-- `update_db` (lines 64-90): resolve every entry in order, then count the
entries whose `cluster_id` is not `None`; when there are none, print the
captcha diagnostic and exit, otherwise the mutated entry list stands. -/
def update_db (f : SearchFn) (entries : List Reference) :
    Except String (List Reference) :=
  let updatedEntries := entries.map (resolveEntry f)
  let updated := updatedEntries.filter (fun ref => ref.cluster_id ≠ none)
  if updated.length = 0 then .error captchaError else .ok updatedEntries

/-- Python `range(0, n, 20)` (line 105): the start offsets `0, 20, 40, …`
strictly below `n`; empty when `n ≤ 0`.  The length of that range is the
number of 20-blocks needed to cover `n`. -/
def pageStarts (n : Int) : List Int :=
  (List.range ((n + 19) / 20).toNat).map (fun i : Nat => 20 * (i : Int))

/-- The paging loop of `get_citers` (lines 102-111): `citers` starts as `[]`
and each page returned by the cited-by query is appended with `extend`, in
the order received. -/
def fetchPages (g : CitesFn) (cluster_id : String) (n : Int) : List SchArticle :=
  (pageStarts n).foldl (fun citers start => citers ++ g cluster_id start) []

/-- The Python comparison `x < y` for `x` a value that may be `None` and `y`
an `int` (line 96): in Python 3 comparing `None` with an `int` raises
`TypeError`. -/
def pyLtInt (x : Option Int) (y : Int) : Except String Bool :=
  match x with
  | none => .error "TypeError: unorderable types: NoneType() < int()"
  | some n => .ok (decide (n < y))

/-- The list comprehension building `to_check` (line 96):
`ref[cluster_id] is not None and ref[num_citations] < self.rmax`, evaluated
left to right over the entries with a short-circuit `and`, so the comparison
(which can raise) is only reached when `cluster_id` is not `None`. -/
def toCheckFilter (rmax : Int) : List Reference → Except String (List Reference)
  | [] => .ok []
  | ref :: rest =>
      match (if ref.cluster_id = none then .ok false
             else pyLtInt ref.num_citations rmax : Except String Bool) with
      | .error e => .error e
      | .ok keep =>
          match toCheckFilter rmax rest with
          | .error e => .error e
          | .ok tail => .ok (if keep then ref :: tail else tail)

/-- The selection of line 96 as a Boolean predicate, defined on the
references where the comparison cannot raise: `cluster_id` present and
`num_citations` present and below `rmax`. -/
def selectedB (rmax : Int) (ref : Reference) : Bool :=
  ref.cluster_id.isSome &&
    (match ref.num_citations with
     | none => false
     | some n => decide (n < rmax))

/-- The per-reference body of the `get_citers` loop (lines 98-114): a
selected reference gets `cited_by` set to the `(cluster_id, title)` pairs of
all fetched citers; a reference failing the selection is left untouched. -/
def updateCiters (g : CitesFn) (rmax : Int) (ref : Reference) : Reference :=
  match ref.cluster_id, ref.num_citations with
  | some cid, some n =>
      if n < rmax then
        let pairs := (fetchPages g cid n).map
          (fun sch_art => (sch_art.cluster_id, sch_art.title))
        { ref with cited_by := some pairs }
      else ref
  | _, _ => ref

/-- `get_citers` (lines 92-117): build `to_check` (the comprehension can
raise a `TypeError`), then set `cited_by` on the selected entries.  The
dicts in `to_check` alias dicts of `entries`, so the in-place mutation is
modelled by mapping `updateCiters` over all entries: it rewrites exactly the
entries that pass the selection. -/
def get_citers (g : CitesFn) (rmax : Int) (entries : List Reference) :
    Except String (List Reference) :=
  match toCheckFilter rmax entries with
  | .error e => .error e
  | .ok _to_check => .ok (entries.map (updateCiters g rmax))

/-- The distinct elements of `l` in first-occurrence order: the key order of
the dict that `collections.Counter` builds. -/
def firstOcc : List Citer → List Citer
  | [] => []
  | c :: rest => c :: (firstOcc rest).filter (fun c2 => c2 ≠ c)

/-- `collections.Counter(l)` (line 132): a mapping, in first-occurrence
order, from each distinct element of `l` to its number of occurrences. -/
def counterOf (l : List Citer) : List (Citer × Nat) :=
  (firstOcc l).map (fun c => (c, l.count c))

/-- Looking a citer up in the counter items: its stored count, or 0 when the
citer holds no entry. -/
def counterCount : List (Citer × Nat) → Citer → Nat
  | [], _ => 0
  | p :: rest, c => if p.1 = c then p.2 else counterCount rest c

/-- Lines 124-129 of `find_common`: keep the entries carrying a `cited_by`
key, and concatenate their `cited_by` lists in entry order. -/
def citationsList (entries : List Reference) : List Citer :=
  (entries.filter (fun a => a.cited_by ≠ none)).flatMap
    (fun a => a.cited_by.getD [])

/-- `find_common` (lines 119-132): count how many times each citing article
appears across the combined `cited_by` lists. -/
def find_common (entries : List Reference) : List (Citer × Nat) :=
  counterOf (citationsList entries)

/-- Python `str.format` with spec `{:<19}` followed by `{}` (line 141): the
decimal count left-justified to width 19, padded on the right with spaces,
then the title. -/
def formatRow (ct : Nat) (title : String) : String :=
  let s := Nat.repr ct
  s ++ String.mk (List.replicate (19 - s.length) ' ') ++ title

/-- The row loop of `print_results` (lines 139-141): one line per counter
item with count above 1, in counter iteration order; `title` is the
`(cluster ID, title)` pair and `title[1]` its title component. -/
def printRows : List (Citer × Nat) → List String
  | [] => []
  | (title, ct) :: rest =>
      if ct > 1 then formatRow ct title.2 :: printRows rest
      else printRows rest

/-- `print_results` (lines 134-141): the printed lines, the header first. -/
def print_results (counter : List (Citer × Nat)) : List String :=
  "Citations shared   Title" :: printRows counter

/-- `Counter.most_common()` (line 148): the counter items sorted by count,
descending; the sort is stable, so ties keep the insertion order. -/
def most_common (items : List (Citer × Nat)) : List (Citer × Nat) :=
  items.mergeSort (fun a b => b.2 ≤ a.2)

/-- A Python value passed to a file method. -/
inductive PyVal where
  | int (n : Int)
  | str (s : String)
deriving DecidableEq

/-- A call to `write` on a file opened in text mode, applied to an argument
list: it accepts exactly one argument, which must be a `str`; on success the
returned string is the text appended to the file. -/
def fileWrite (args : List PyVal) : Except String String :=
  match args with
  | [PyVal.str s] => .ok s
  | [_] => .error "TypeError: write() argument must be str, not int"
  | _ => .error "TypeError: write() takes exactly one argument"

/-- The row loop of `save_results` (lines 148-150): iterate `most_common()`
and, for each item with count above 1, run `o.write(ct, title[1])` — a call
with two arguments, the first an `int`.  On success the accumulated file
content is returned. -/
def saveRows : List (Citer × Nat) → Except String String
  | [] => .ok ""
  | (title, ct) :: rest =>
      if ct > 1 then
        match fileWrite [PyVal.int (ct : Int), PyVal.str title.2] with
        | .error e => .error e
        | .ok line =>
            match saveRows rest with
            | .error e => .error e
            | .ok restOut => .ok (line ++ restOut)
      else saveRows rest

/-- `save_results` (lines 143-150): write the over-threshold rows of
`most_common()` to the opened output file; the result is the final file
content. -/
def save_results (counter : List (Citer × Nat)) : Except String String :=
  saveRows (most_common counter)

/-- `do_check` (lines 46-51) after `load_bibfile`: resolve the entries,
fetch the citers, aggregate; the value is the counter that the reporting
step reads. -/
def do_check (f : SearchFn) (g : CitesFn) (rmax : Int)
    (entries : List Reference) : Except String (List (Citer × Nat)) :=
  match update_db f entries with
  | .error e => .error e
  | .ok db =>
      match get_citers g rmax db with
      | .error e => .error e
      | .ok db2 => .ok (find_common db2)

/-- A sample search result used to exercise the oracles on concrete data. -/
def sampleArticle : SchArticle := ⟨7, "cid1", "T1"⟩

/-- A search oracle that resolves every title to `sampleArticle`. -/
def sampleSearch : SearchFn := fun _ => [sampleArticle]

/-- A search oracle that finds nothing (the captcha scenario). -/
def emptySearch : SearchFn := fun _ => []

/-- A cited-by oracle returning one citer on every page. -/
def sampleCites : CitesFn := fun _ _ => [⟨3, "x1", "X"⟩]

/-- A cited-by oracle returning no citers. -/
def emptyCites : CitesFn := fun _ _ => []

/-- A freshly loaded entry: only `title` is populated. -/
def freshRef : Reference := ⟨"A", none, none, none⟩

/-- An entry as it looks after a successful resolution. -/
def resolvedRef : Reference := ⟨"B", some 7, some "cid1", none⟩

/-- An entry whose citers were fetched: two citing articles. -/
def refX : Reference := ⟨"X", some 2, some "cx", some [("p1", "P1"), ("p2", "P2")]⟩

/-- An entry whose citers were fetched: one citing article. -/
def refY : Reference := ⟨"Y", some 3, some "cy", some [("p1", "P1")]⟩

theorem printRows_eq (items : List (Citer × Nat)) :
    printRows items
      = (items.filter (fun p => 1 < p.2)).map (fun p => formatRow p.2 p.1.2) := by
  induction items with
  | nil => rfl
  | cons p rest ih =>
      obtain ⟨title, ct⟩ := p
      by_cases h : 1 < ct <;> simp [printRows, List.filter_cons, h, ih]

theorem mem_firstOcc (l : List Citer) (c : Citer) : c ∈ firstOcc l ↔ c ∈ l := by
  induction l with
  | nil => simp [firstOcc]
  | cons a rest ih =>
      by_cases hca : c = a
      · subst hca; simp [firstOcc]
      · simp [firstOcc, List.mem_filter, hca, ih]

theorem nodup_firstOcc (l : List Citer) : (firstOcc l).Nodup := by
  induction l with
  | nil => simp [firstOcc]
  | cons a rest ih =>
      rw [firstOcc, List.nodup_cons]
      refine ⟨?_, ih.filter _⟩
      simp [List.mem_filter]

theorem counterCount_map (l : List Citer) (xs : List Citer) (c : Citer) :
    counterCount (xs.map (fun x => (x, l.count x))) c
      = if c ∈ xs then l.count c else 0 := by
  induction xs with
  | nil => simp [counterCount]
  | cons x rest ih =>
      by_cases hxc : x = c
      · subst hxc
        simp [counterCount]
      · rw [List.map_cons, counterCount, if_neg hxc, ih]
        simp only [List.mem_cons]
        by_cases hc : c ∈ rest
        · simp [hc]
        · have hcx : ¬ c = x := fun h => hxc h.symm
          simp [hc, hcx]

theorem counterCount_counterOf (l : List Citer) (c : Citer) :
    counterCount (counterOf l) c = l.count c := by
  rw [counterOf, counterCount_map]
  by_cases h : c ∈ l
  · simp [mem_firstOcc, h]
  · simp [mem_firstOcc, h, List.count_eq_zero.mpr h]

theorem fetchPages_eq_flatMap (g : CitesFn) (cid : String) (n : Int) :
    fetchPages g cid n = (pageStarts n).flatMap (g cid) := by
  have h : ∀ (xs : List Int) (acc : List SchArticle),
      xs.foldl (fun citers start => citers ++ g cid start) acc
        = acc ++ xs.flatMap (g cid) := by
    intro xs
    induction xs with
    | nil => intro acc; simp
    | cons x rest ih => intro acc; simp [ih, List.flatMap_cons, List.append_assoc]
  simpa using h (pageStarts n) []

theorem mem_pageStarts (n s : Int) :
    s ∈ pageStarts n ↔ 0 ≤ s ∧ s < n ∧ s % 20 = 0 := by
  rw [pageStarts]
  constructor
  · intro hs
    obtain ⟨i, hi, rfl⟩ := List.mem_map.mp hs
    rw [List.mem_range] at hi
    refine ⟨by omega, by omega, by omega⟩
  · rintro ⟨h0, hn, hm⟩
    refine List.mem_map.mpr ⟨(s / 20).toNat, ?_, by omega⟩
    rw [List.mem_range]
    omega


theorem resolveEntry_num (f : SearchFn) (r : Reference) :
    (resolveEntry f r).num_citations
      = ((f r.title).head?).map SchArticle.num_citations := by
  cases h : f r.title <;> simp [resolveEntry, h]

theorem resolveEntry_cluster (f : SearchFn) (r : Reference) :
    (resolveEntry f r).cluster_id
      = ((f r.title).head?).map SchArticle.cluster_id := by
  cases h : f r.title <;> simp [resolveEntry, h]

theorem resolveEntry_cited_by (f : SearchFn) (r : Reference) :
    (resolveEntry f r).cited_by = r.cited_by := by
  cases h : f r.title <;> simp [resolveEntry, h]

theorem resolveEntry_wf (f : SearchFn) (r : Reference) :
    (resolveEntry f r).cluster_id ≠ none → (resolveEntry f r).num_citations ≠ none := by
  cases h : f r.title <;> simp [resolveEntry, h]

theorem updateCiters_not_selected (g : CitesFn) (rmax : Int) (r : Reference)
    (h : selectedB rmax r = false) : updateCiters g rmax r = r := by
  cases hc : r.cluster_id with
  | none => simp [updateCiters, hc]
  | some cid =>
      cases hn : r.num_citations with
      | none => simp [updateCiters, hc, hn]
      | some m =>
          have hm : ¬ m < rmax := by
            simp [selectedB, hc, hn] at h
            omega
          simp [updateCiters, hc, hn, hm]

theorem updateCiters_selected (g : CitesFn) (rmax : Int) (r : Reference)
    (cid : String) (m : Int) (hc : r.cluster_id = some cid)
    (hn : r.num_citations = some m) (hm : m < rmax) :
    updateCiters g rmax r
      = { r with cited_by := some ((fetchPages g cid m).map
            (fun sch_art => (sch_art.cluster_id, sch_art.title))) } := by
  simp [updateCiters, hc, hn, hm]

theorem updateCiters_cited_by_iff (g : CitesFn) (rmax : Int) (r : Reference)
    (hfresh : r.cited_by = none) :
    (updateCiters g rmax r).cited_by ≠ none ↔ selectedB rmax r = true := by
  cases hc : r.cluster_id with
  | none => simp [updateCiters, hc, hfresh, selectedB]
  | some cid =>
      cases hn : r.num_citations with
      | none => simp [updateCiters, hc, hn, hfresh, selectedB]
      | some m =>
          by_cases hm : m < rmax
          · simp [updateCiters, hc, hn, hm, selectedB]
          · simp [updateCiters, hc, hn, hm, hfresh, selectedB]

theorem toCheckFilter_ok (rmax : Int) (entries : List Reference)
    (hwf : ∀ r ∈ entries, r.cluster_id ≠ none → r.num_citations ≠ none) :
    toCheckFilter rmax entries = .ok (entries.filter (selectedB rmax)) := by
  induction entries with
  | nil => rfl
  | cons r rest ih =>
      have hrest : ∀ x ∈ rest, x.cluster_id ≠ none → x.num_citations ≠ none :=
        fun x hx => hwf x (List.mem_cons_of_mem r hx)
      cases hc : r.cluster_id with
      | none =>
          simp [toCheckFilter, hc, ih hrest, List.filter_cons, selectedB]
      | some cid =>
          cases hn : r.num_citations with
          | none =>
              have := hwf r (List.mem_cons_self r rest) (by simp [hc])
              exact absurd hn this
          | some m =>
              simp [toCheckFilter, hc, hn, pyLtInt, ih hrest, List.filter_cons, selectedB]


theorem citationsList_map_updateCiters (g : CitesFn) (rmax : Int)
    (entries : List Reference)
    (hfresh : ∀ r ∈ entries, r.cited_by = none) :
    citationsList (entries.map (updateCiters g rmax))
      = (entries.filter (selectedB rmax)).flatMap
          (fun r => (updateCiters g rmax r).cited_by.getD []) := by
  rw [citationsList, List.filter_map]
  have hcongr : ∀ r ∈ entries,
      ((fun a : Reference => decide (a.cited_by ≠ none)) ∘ updateCiters g rmax) r
        = selectedB rmax r := by
    intro r hr
    have hiff := updateCiters_cited_by_iff g rmax r (hfresh r hr)
    simp only [Function.comp_apply]
    rw [Bool.eq_iff_iff, decide_eq_true_iff]
    exact hiff
  rw [List.filter_congr hcongr, List.flatMap_map]

/-- C1: in print mode, `print_results` on the counter built from the combined
citer list emits the header line `Citations shared   Title` first, and then
exactly one row for each distinct CiterRecord whose count exceeds 1 (the
counter keys are distinct, in first-occurrence order, and a count-1 record
passes the filter for no row); each row is the count left-justified to width
19 followed by the title component. -/
theorem print_mode_rows (l : List Citer) :
    print_results (counterOf l)
      = "Citations shared   Title"
        :: ((firstOcc l).filter (fun c => 1 < l.count c)).map
             (fun c => formatRow (l.count c) c.2)
    ∧ (firstOcc l).Nodup
    ∧ (∀ c : Citer, c ∈ firstOcc l ↔ c ∈ l) := by
  refine ⟨?_, nodup_firstOcc l, fun c => mem_firstOcc l c⟩
  rw [print_results, printRows_eq, counterOf, List.filter_map, List.map_map]
  rfl

/-- C2: evaluation at the failing input.  In save mode the code reaches
`o.write(ct, title[1])` — a two-argument call with an `int` first argument —
so on the first counter entry with count above 1 it raises `TypeError`
instead of writing a formatted text line, here on the counter of a citer
record seen twice. -/
theorem save_results_type_error :
    save_results (counterOf [("c1", "Title A"), ("c1", "Title A")])
      = .error "TypeError: write() takes exactly one argument" := by
  simp [save_results, counterOf, firstOcc, most_common, saveRows, fileWrite]

/-- C6: the citer fetch pages at offsets 0, 20, 40, … of the fixed page size
20, strictly below `num_citations` (so, exactly the multiples of 20 below
it); for `num_citations = 45` exactly 3 pages are queried, at offsets 0, 20
and 40, and the returned citers are concatenated page by page in the order
received. -/
theorem pagination_pages :
    pageStarts 45 = [0, 20, 40]
    ∧ (∀ (g : CitesFn) (cid : String),
        fetchPages g cid 45 = g cid 0 ++ g cid 20 ++ g cid 40)
    ∧ (∀ n s : Int, s ∈ pageStarts n ↔ 0 ≤ s ∧ s < n ∧ s % 20 = 0)
    ∧ (∀ (g : CitesFn) (cid : String) (n : Int),
        fetchPages g cid n = (pageStarts n).flatMap (g cid)) := by
  refine ⟨rfl, ?_, mem_pageStarts, fetchPages_eq_flatMap⟩
  intro g cid
  rw [fetchPages_eq_flatMap]
  show ([0, 20, 40] : List Int).flatMap (g cid) = _
  simp [List.flatMap_cons, List.append_assoc]

/-- C7: a selected reference with `num_citations = 0` triggers no page query
(the offset range is empty and the result does not depend on the cited-by
oracle) and its `cited_by` becomes `some []` — present but empty. -/
theorem zero_citations_fetch (g g2 : CitesFn) (rmax : Int) (r : Reference)
    (cid : String) (hc : r.cluster_id = some cid)
    (hn : r.num_citations = some 0) (hr : 0 < rmax) :
    pageStarts 0 = []
    ∧ fetchPages g cid 0 = []
    ∧ updateCiters g rmax r = { r with cited_by := some [] }
    ∧ updateCiters g rmax r = updateCiters g2 rmax r := by
  refine ⟨rfl, rfl, ?_, ?_⟩
  · rw [updateCiters_selected g rmax r cid 0 hc hn hr]
    rfl
  · rw [updateCiters_selected g rmax r cid 0 hc hn hr,
        updateCiters_selected g2 rmax r cid 0 hc hn hr]
    rfl

/-- C8: the aggregated count of every CiterRecord equals its number of
occurrences in the flattened concatenation of the `cited_by` lists, and
permuting the processed references leaves every count unchanged. -/
theorem aggregation_order_independent (entries entries2 : List Reference)
    (hperm : entries.Perm entries2) (c : Citer) :
    counterCount (find_common entries) c = (citationsList entries).count c
    ∧ counterCount (find_common entries) c
        = counterCount (find_common entries2) c := by
  have hp : (citationsList entries).Perm (citationsList entries2) := by
    rw [citationsList, citationsList]
    exact (hperm.filter _).flatMap_right _
  refine ⟨counterCount_counterOf _ c, ?_⟩
  rw [find_common, find_common, counterCount_counterOf, counterCount_counterOf]
  have := hp.countP_eq (fun x => x == c)
  simpa [List.count_eq_countP] using this


theorem selectedB_iff (rmax : Int) (r : Reference) :
    selectedB rmax r = true
      ↔ r.cluster_id ≠ none ∧ ∃ n, r.num_citations = some n ∧ n < rmax := by
  cases hc : r.cluster_id <;> cases hn : r.num_citations <;>
    simp [selectedB, hc, hn]

/-- C3: the resolver pass maps the entry list one-to-one (the length is
preserved and `update_db` either exits with the captcha diagnostic or
returns exactly the mapped list), and each resolved entry has
`num_citations` and `cluster_id` copied from the top search result, or both
`None` when the result set is empty — so the two fields are always both set
or both null. -/
theorem update_db_resolves (f : SearchFn) (entries : List Reference)
    (a : Reference) (ha : a ∈ entries) :
    (entries.map (resolveEntry f)).length = entries.length
    ∧ (update_db f entries = .error captchaError
       ∨ update_db f entries = .ok (entries.map (resolveEntry f)))
    ∧ resolveEntry f a ∈ entries.map (resolveEntry f)
    ∧ (resolveEntry f a).num_citations
        = ((f a.title).head?).map SchArticle.num_citations
    ∧ (resolveEntry f a).cluster_id
        = ((f a.title).head?).map SchArticle.cluster_id
    ∧ ((resolveEntry f a).num_citations ≠ none ∧ (resolveEntry f a).cluster_id ≠ none
       ∨ (resolveEntry f a).num_citations = none ∧ (resolveEntry f a).cluster_id = none) := by
  refine ⟨by simp, ?_, List.mem_map_of_mem _ ha,
    resolveEntry_num f a, resolveEntry_cluster f a, ?_⟩
  · simp only [update_db]
    split
    · exact Or.inl rfl
    · exact Or.inr rfl
  · cases h : f a.title with
    | nil => right; simp [resolveEntry, h]
    | cons top rest => left; simp [resolveEntry, h]

/-- C4: when every resolved reference has a null `cluster_id`, `update_db`
reports the captcha fatal condition and the whole run stops there — the
pipeline result is that error, and it does not depend on the cited-by
oracle, so no citer fetching, aggregation or report happens; when at least
one `cluster_id` is non-null, `update_db` succeeds and the pipeline
continues into the citer-fetching stage. -/
theorem all_null_fatal (f : SearchFn) (g g2 : CitesFn) (rmax : Int)
    (entries : List Reference) :
    ((∀ r ∈ entries.map (resolveEntry f), r.cluster_id = none) →
        update_db f entries = .error captchaError
        ∧ do_check f g rmax entries = .error captchaError
        ∧ do_check f g rmax entries = do_check f g2 rmax entries)
    ∧ ((∃ r ∈ entries.map (resolveEntry f), r.cluster_id ≠ none) →
        update_db f entries = .ok (entries.map (resolveEntry f))
        ∧ do_check f g rmax entries
            = (match get_citers g rmax (entries.map (resolveEntry f)) with
               | .error e => .error e
               | .ok db2 => .ok (find_common db2))) := by
  constructor
  · intro hall
    have hfilter : (entries.map (resolveEntry f)).filter
        (fun ref => ref.cluster_id ≠ none) = [] :=
      List.filter_eq_nil_iff.mpr (fun r hr => by simp [hall r hr])
    have herr : update_db f entries = .error captchaError := by
      simp [update_db, hfilter]
      intro x hx
      exact hall _ (List.mem_map_of_mem _ hx)
    refine ⟨herr, ?_, ?_⟩ <;> simp [do_check, herr]
  · rintro ⟨r, hr, hne⟩
    have hfilter : ((entries.map (resolveEntry f)).filter
        (fun ref => ref.cluster_id ≠ none)).length ≠ 0 := by
      intro h0
      rw [List.length_eq_zero] at h0
      have := List.filter_eq_nil_iff.mp h0 r hr
      simp [hne] at this
    have hok : update_db f entries = .ok (entries.map (resolveEntry f)) := by
      simp only [update_db]
      rw [if_neg hfilter]
    exact ⟨hok, by simp [do_check, hok]⟩

/-- C5: on a resolver-shaped entry list, `to_check` selects exactly the
references with a non-null `cluster_id` and `num_citations` strictly below
`rmax`; a reference with a null `cluster_id`, or with `num_citations` at or
above `rmax`, is never selected and is left untouched by the fetch pass. -/
theorem citer_selection (g : CitesFn) (rmax : Int) (entries : List Reference)
    (hwf : ∀ r ∈ entries, r.cluster_id ≠ none → r.num_citations ≠ none) :
    toCheckFilter rmax entries = .ok (entries.filter (selectedB rmax))
    ∧ (∀ r ∈ entries.filter (selectedB rmax),
        r.cluster_id ≠ none ∧ ∃ n, r.num_citations = some n ∧ n < rmax)
    ∧ (∀ r ∈ entries,
        (r.cluster_id = none ∨ (∀ n, r.num_citations = some n → rmax ≤ n)) →
        r ∉ entries.filter (selectedB rmax))
    ∧ (∀ r ∈ entries, selectedB rmax r = false → updateCiters g rmax r = r) := by
  refine ⟨toCheckFilter_ok rmax entries hwf, ?_, ?_,
    fun r _ h => updateCiters_not_selected g rmax r h⟩
  · intro r hr
    exact (selectedB_iff rmax r).mp (List.mem_filter.mp hr).2
  · intro r hmem hbad hmemf
    obtain ⟨hcne, n, hn, hlt⟩ := (selectedB_iff rmax r).mp (List.mem_filter.mp hmemf).2
    cases hbad with
    | inl hc => exact hcne hc
    | inr hge => exact absurd hlt (not_lt.mpr (hge n hn))

/-- C9: after the fetch pass over resolver-produced entries (no `cited_by`
key yet, fields both-or-neither), a reference carries a `cited_by` key if
and only if its `cluster_id` is non-null and its `num_citations` is below
the ceiling; a reference failing the filter is untouched — no `cited_by`
key at all — and the aggregated counts are computed from the selected
references alone. -/
theorem cited_by_invariant (g : CitesFn) (rmax : Int) (entries : List Reference)
    (hfresh : ∀ r ∈ entries, r.cited_by = none)
    (hwf : ∀ r ∈ entries, r.cluster_id ≠ none → r.num_citations ≠ none) :
    get_citers g rmax entries = .ok (entries.map (updateCiters g rmax))
    ∧ (∀ r ∈ entries,
        ((updateCiters g rmax r).cited_by ≠ none
          ↔ r.cluster_id ≠ none ∧ ∃ n, r.num_citations = some n ∧ n < rmax))
    ∧ (∀ r ∈ entries, selectedB rmax r = false →
        updateCiters g rmax r = r ∧ (updateCiters g rmax r).cited_by = none)
    ∧ (∀ c : Citer,
        counterCount (find_common (entries.map (updateCiters g rmax))) c
          = ((entries.filter (selectedB rmax)).flatMap
              (fun r => (updateCiters g rmax r).cited_by.getD [])).count c) := by
  refine ⟨?_, ?_, ?_, ?_⟩
  · simp only [get_citers, toCheckFilter_ok rmax _ hwf]
  · intro r hr
    rw [updateCiters_cited_by_iff g rmax r (hfresh r hr)]
    exact selectedB_iff rmax r
  · intro r hr hsel
    have h1 := updateCiters_not_selected g rmax r hsel
    exact ⟨h1, by rw [h1]; exact hfresh r hr⟩
  · intro c
    rw [find_common, counterCount_counterOf,
      citationsList_map_updateCiters g rmax entries hfresh]

/-- C10: every entry coming out of the resolver has `num_citations` set
whenever `cluster_id` is set, so the `to_check` comparison never evaluates
`None < rmax`: building the selection always succeeds and `get_citers`
never reaches the `TypeError` branch. -/
theorem resolver_no_null_comparison (f : SearchFn) (g : CitesFn) (rmax : Int)
    (entries : List Reference) :
    (∀ r ∈ entries.map (resolveEntry f),
        r.cluster_id ≠ none → r.num_citations ≠ none)
    ∧ toCheckFilter rmax (entries.map (resolveEntry f))
        = .ok ((entries.map (resolveEntry f)).filter (selectedB rmax))
    ∧ get_citers g rmax (entries.map (resolveEntry f))
        = .ok ((entries.map (resolveEntry f)).map (updateCiters g rmax)) := by
  have hwf : ∀ r ∈ entries.map (resolveEntry f),
      r.cluster_id ≠ none → r.num_citations ≠ none := by
    intro r hr
    obtain ⟨a, -, rfl⟩ := List.mem_map.mp hr
    exact resolveEntry_wf f a
  refine ⟨hwf, toCheckFilter_ok rmax _ hwf, ?_⟩
  simp only [get_citers, toCheckFilter_ok rmax _ hwf]


/-- C3 witness: the resolver instantiated on one entry and a one-result
search oracle. -/
theorem update_db_resolves_witness :
    freshRef ∈ [freshRef]
    ∧ (resolveEntry sampleSearch freshRef).num_citations = some 7 := by
  refine ⟨by simp, ?_⟩
  rw [(update_db_resolves sampleSearch [freshRef] freshRef (by simp)).2.2.2.1]
  rfl

/-- C4 witness: with a search oracle that resolves nothing, the pipeline on
one entry stops with the captcha diagnostic. -/
theorem all_null_fatal_witness :
    (∀ r ∈ List.map (resolveEntry emptySearch) [freshRef], r.cluster_id = none)
    ∧ do_check emptySearch sampleCites 50 [freshRef] = .error captchaError := by
  have hall : ∀ r ∈ List.map (resolveEntry emptySearch) [freshRef],
      r.cluster_id = none := by decide
  exact ⟨hall,
    ((all_null_fatal emptySearch sampleCites sampleCites 50 [freshRef]).1 hall).2.1⟩

/-- C5 witness: the selection on a resolved and an unresolved entry. -/
theorem citer_selection_witness :
    (∀ r ∈ [resolvedRef, freshRef], r.cluster_id ≠ none → r.num_citations ≠ none)
    ∧ toCheckFilter 50 [resolvedRef, freshRef]
        = .ok ([resolvedRef, freshRef].filter (selectedB 50)) := by
  have hwf : ∀ r ∈ [resolvedRef, freshRef],
      r.cluster_id ≠ none → r.num_citations ≠ none := by decide
  exact ⟨hwf, (citer_selection sampleCites 50 [resolvedRef, freshRef] hwf).1⟩

/-- C7 witness: a zero-citation selected reference gets an empty `cited_by`
list. -/
theorem zero_citations_fetch_witness :
    updateCiters emptyCites 50 ⟨"Z", some 0, some "zc", none⟩
      = { (⟨"Z", some 0, some "zc", none⟩ : Reference) with cited_by := some [] } :=
  (zero_citations_fetch emptyCites sampleCites 50 ⟨"Z", some 0, some "zc", none⟩
    "zc" rfl rfl (by decide)).2.2.1

/-- C8 witness: swapping two fetched references leaves the count of the
shared citer unchanged. -/
theorem aggregation_order_independent_witness :
    [refX, refY].Perm [refY, refX]
    ∧ counterCount (find_common [refX, refY]) ("p1", "P1")
        = counterCount (find_common [refY, refX]) ("p1", "P1") :=
  ⟨List.Perm.swap refY refX [],
    (aggregation_order_independent [refX, refY] [refY, refX]
      (List.Perm.swap refY refX []) ("p1", "P1")).2⟩

/-- C9 witness: the fetch pass instantiated on a resolved and an unresolved
entry. -/
theorem cited_by_invariant_witness :
    get_citers sampleCites 50 [resolvedRef, freshRef]
      = .ok ([resolvedRef, freshRef].map (updateCiters sampleCites 50)) := by
  have hfresh : ∀ r ∈ [resolvedRef, freshRef], r.cited_by = none := by decide
  have hwf : ∀ r ∈ [resolvedRef, freshRef],
      r.cluster_id ≠ none → r.num_citations ≠ none := by decide
  exact (cited_by_invariant sampleCites 50 [resolvedRef, freshRef] hfresh hwf).1

/-- C10 witness: the fetch succeeds on the resolver output for one entry. -/
theorem resolver_no_null_comparison_witness :
    get_citers sampleCites 50 (List.map (resolveEntry sampleSearch) [freshRef])
      = .ok ((List.map (resolveEntry sampleSearch) [freshRef]).map
          (updateCiters sampleCites 50)) :=
  (resolver_no_null_comparison sampleSearch sampleCites 50 [freshRef]).2.2

end Bibcheck
